import Mathlib

/-!
Verification of the attendance aggregation and notification core of the
smart-campus-system repository.

The Python source is shallowly embedded: Django querysets over the
`Attendance` table become Lean lists of records, `update_or_create` becomes an
explicit list upsert, and the notification side effects become explicit state
passing over a `NotifState` structure.  Python's `round(x, 1)` on exact values
is modelled over `ℚ` by `pyRound1` (round to the nearest multiple of 1/10,
ties to the even multiple, as documented for Python's built-in `round`).
-/

namespace SmartCampus

/-- Attendance.STATUS_CHOICES from attendance/models.py. -/
inductive Status
  | present
  | absent
  | late
  | excused
deriving DecidableEq, Repr

/-- Attendance.VERIFICATION_METHODS from attendance/models.py. -/
inductive VMethod
  | manual
  | face_recognition
  | mobile_gps
  | qr_scan
deriving DecidableEq, Repr

/-- Python's built-in `round` to an integer: nearest integer, ties go to the
even integer (banker's rounding), evaluated here on an exact rational. -/
def pyRoundInt (x : ℚ) : ℤ :=
  if x - ⌊x⌋ < 1/2 then ⌊x⌋
  else if 1/2 < x - ⌊x⌋ then ⌊x⌋ + 1
  else if ⌊x⌋ % 2 = 0 then ⌊x⌋ else ⌊x⌋ + 1

/-- Python's `round(x, 1)`: round to the nearest multiple of 1/10, ties to the
even multiple. -/
def pyRound1 (x : ℚ) : ℚ :=
  (pyRoundInt (10 * x) : ℚ) / 10

/-- Modelled from the spec, for comparison only: rounding half-up to one
decimal place, as §4.3 of the spec words it ("Rounding: half-up to 1 decimal
place").  This is the spec-side definition; the code-side one is `pyRound1`. -/
def specRoundHalfUp1 (x : ℚ) : ℚ :=
  ((⌊10 * x + 1/2⌋ : ℤ) : ℚ) / 10

/-- Result shape of InstantAttendanceUpdater.get_session_stats
(face_recognition/ai_engine.py, lines 406-430). -/
structure SessionStats where
  total : ℕ
  present : ℕ
  absent : ℕ
  late : ℕ
  excused : ℕ
  percentage : ℚ
deriving DecidableEq, Repr

/-- InstantAttendanceUpdater.get_session_stats (face_recognition/ai_engine.py,
lines 406-430): aggregate counts by status over the session's attendance
records, then `total = stats['total'] or 1` and
`stats['percentage'] = round((present + late) / total * 100, 1)`.
The record list stands for the queryset `Attendance.objects.filter(session=s)`,
one `Status` per row. -/
def get_session_stats (records : List Status) : SessionStats :=
  let total := records.length
  let p := records.count .present
  let a := records.count .absent
  let l := records.count .late
  let e := records.count .excused
  let t := if total = 0 then 1 else total
  { total := total, present := p, absent := a, late := l, excused := e,
    percentage := pyRound1 ((((p : ℚ) + (l : ℚ)) / (t : ℚ)) * 100) }

/-- Percentage computed by session_detail (attendance/views.py, lines 370-381):
same counts, but the divide-by-zero guard is `if stats['total'] > 0: ... else
stats['percentage'] = 0` instead of `total or 1`. -/
def session_detail_percentage (records : List Status) : ℚ :=
  let p := records.count .present
  let l := records.count .late
  if 0 < records.length then pyRound1 ((((p : ℚ) + (l : ℚ)) / (records.length : ℚ)) * 100)
  else 0

theorem python_or_eq_max (n : ℕ) : (if n = 0 then 1 else n) = max n 1 := by
  rcases n with _ | n <;> simp [Nat.succ_le_iff]

/-- C2: for every list of Attendance records, the computed statistics satisfy
`percentage = round(100 * (present + late) / max(total, 1), 1)`; the empty list
yields all-zero stats with percentage 0; `[present, present, absent, late]`
yields percentage 75.0; and the session_detail code path computes the same
percentage as get_session_stats on every record list. -/
theorem C2_stats_percentage_formula :
    (∀ records : List Status,
        (get_session_stats records).percentage
          = pyRound1 (100 * (((get_session_stats records).present : ℚ)
              + ((get_session_stats records).late : ℚ))
                / ((max (get_session_stats records).total 1 : ℕ) : ℚ)))
    ∧ get_session_stats [] = ⟨0, 0, 0, 0, 0, 0⟩
    ∧ (get_session_stats [.present, .present, .absent, .late]).percentage = 75
    ∧ (∀ records : List Status,
        session_detail_percentage records = (get_session_stats records).percentage) := by
  refine ⟨?_, ?_, ?_, ?_⟩
  · intro records
    simp only [get_session_stats, python_or_eq_max]
    congr 1
    ring
  · simp only [get_session_stats]
    norm_num [pyRound1, pyRoundInt]
  · have h : [Status.present, Status.present, Status.absent, Status.late].count Status.present = 2
        ∧ [Status.present, Status.present, Status.absent, Status.late].count Status.late = 1
        ∧ [Status.present, Status.present, Status.absent, Status.late].length = 4 := by decide
    simp only [get_session_stats, h.1, h.2.1, h.2.2]
    norm_num [pyRound1, pyRoundInt]
  · intro records
    simp only [session_detail_percentage, get_session_stats]
    rcases Nat.eq_zero_or_pos records.length with hz | hpos
    · have hnil : records = [] := List.length_eq_zero.mp hz
      subst hnil
      norm_num [pyRound1, pyRoundInt]
    · rw [if_pos hpos, if_neg (Nat.pos_iff_ne_zero.mp hpos)]

/-- C8 counterexample: for the concrete non-empty record list with 1 present
and 15 absent, the exact percentage 100*1/16 = 6.25 falls exactly halfway
between 6.2 and 6.3, yet the code (Python round, ties to even) yields 6.2 and
not the larger multiple 6.3 that half-up rounding (specRoundHalfUp1, the
spec's stated policy) produces. -/
theorem C8_counterexample_tie_rounds_to_even :
    (get_session_stats (Status.present :: List.replicate 15 Status.absent)).percentage = 31/5
    ∧ specRoundHalfUp1 (100
        * (((Status.present :: List.replicate 15 Status.absent).count Status.present : ℚ)
            + ((Status.present :: List.replicate 15 Status.absent).count Status.late : ℚ))
          / ((Status.present :: List.replicate 15 Status.absent).length : ℚ)) = 63/10
    ∧ ((31 : ℚ)/5) ≠ 63/10 := by
  have h : (Status.present :: List.replicate 15 Status.absent).count Status.present = 1
      ∧ (Status.present :: List.replicate 15 Status.absent).count Status.late = 0
      ∧ (Status.present :: List.replicate 15 Status.absent).length = 16 := by decide
  refine ⟨?_, ?_, by norm_num⟩
  · simp only [get_session_stats, h.1, h.2.1, h.2.2]
    norm_num [pyRound1, pyRoundInt]
  · rw [h.1, h.2.1, h.2.2]
    norm_num [specRoundHalfUp1]

/-- C8 amended: the attendance percentage is rounded to 1 decimal place with
ties going to the even multiple of 0.1 (Python's round), not half-up: for
every non-empty record list whose exact scaled percentage 10 * (100*(present
+late)/total) is exactly m + 1/2, the computed percentage is m/10 when m is
even and (m+1)/10 when m is odd. -/
theorem C8_amended_ties_to_even (records : List Status) (m : ℤ)
    (hne : records ≠ [])
    (hhalf : 10 * (100 * (((records.count .present : ℚ) + (records.count .late : ℚ))
        / (records.length : ℚ))) = (m : ℚ) + 1/2) :
    (get_session_stats records).percentage
      = (if m % 2 = 0 then (m : ℚ) else (m : ℚ) + 1) / 10 := by
  have hlen : records.length ≠ 0 := fun hz => hne (List.length_eq_zero.mp hz)
  simp only [get_session_stats, if_neg hlen]
  have harg : (((records.count .present : ℚ) + (records.count .late : ℚ))
      / (records.length : ℚ)) * 100
      = 100 * (((records.count .present : ℚ) + (records.count .late : ℚ))
          / (records.length : ℚ)) := by ring
  rw [pyRound1, harg, pyRoundInt, hhalf]
  have hfl : ⌊(m : ℚ) + 1/2⌋ = m := by
    rw [add_comm, Int.floor_add_int]
    norm_num
  rw [hfl]
  have hfrac : (m : ℚ) + 1/2 - (m : ℚ) = 1/2 := by ring
  rw [hfrac]
  rw [if_neg (by norm_num), if_neg (by norm_num)]
  by_cases hm : m % 2 = 0
  · rw [if_pos hm, if_pos hm]
  · rw [if_neg hm, if_neg hm]
    push_cast
    ring

/-- Witness for C8_amended_ties_to_even at the concrete 1-present/15-absent
list with m = 62: the tie 62.5 rounds to the even 62, i.e. percentage 6.2. -/
theorem C8_amended_ties_to_even_witness :
    (Status.present :: List.replicate 15 Status.absent) ≠ []
    ∧ 10 * (100 * ((((Status.present :: List.replicate 15 Status.absent).count Status.present : ℚ)
        + ((Status.present :: List.replicate 15 Status.absent).count Status.late : ℚ))
          / ((Status.present :: List.replicate 15 Status.absent).length : ℚ)))
        = ((62 : ℤ) : ℚ) + 1/2
    ∧ (get_session_stats (Status.present :: List.replicate 15 Status.absent)).percentage
        = (if (62 : ℤ) % 2 = 0 then ((62 : ℤ) : ℚ) else ((62 : ℤ) : ℚ) + 1) / 10 := by
  have h : (Status.present :: List.replicate 15 Status.absent).count Status.present = 1
      ∧ (Status.present :: List.replicate 15 Status.absent).count Status.late = 0
      ∧ (Status.present :: List.replicate 15 Status.absent).length = 16 := by decide
  have hne : (Status.present :: List.replicate 15 Status.absent) ≠ [] := by simp
  have hhalf : 10 * (100
      * ((((Status.present :: List.replicate 15 Status.absent).count Status.present : ℚ)
        + ((Status.present :: List.replicate 15 Status.absent).count Status.late : ℚ))
          / ((Status.present :: List.replicate 15 Status.absent).length : ℚ)))
      = ((62 : ℤ) : ℚ) + 1/2 := by
    rw [h.1, h.2.1, h.2.2]
    norm_num
  exact ⟨hne, hhalf, C8_amended_ties_to_even _ 62 hne hhalf⟩

/-- Parent (attendance/models.py, lines 45-58): only the fields the
notification flow reads (name, email, phone). -/
structure Parent where
  name : String
  email : String
  phone : String
deriving DecidableEq, Repr

/-- Student (attendance/models.py, lines 61-88): only the fields the claims
touch — primary key `id`, `is_active`, and the contact fields read by the
notification channel simulation. -/
structure Student where
  id : ℕ
  is_active : Bool
  email : String
  phone : String
  parent : Option Parent
deriving DecidableEq, Repr

/-- AttendanceSession (attendance/models.py, lines 110-133) together with its
course's enrollment set: `courseStudents` stands for `session.course.students`
(the many-to-many roster), `courseId` for `session.course_id`. -/
structure Session where
  id : ℕ
  courseId : ℕ
  courseStudents : List Student
  is_active : Bool
deriving DecidableEq, Repr

/-- Attendance (attendance/models.py, lines 136-169).  The row is identified
by the pair (sessionId, studentId): `Meta.unique_together = ['session',
'student']` makes that pair a key, so the foreign key `attendance` on a
Notification is modelled by this pair.  Timestamps (`marked_at`,
`updated_at`) are not modelled; no claim mentions them. -/
structure AttRecord where
  sessionId : ℕ
  studentId : ℕ
  status : Status
  verification_method : VMethod
  marked_by : Option ℕ
  location_lat : Option ℚ
  location_lng : Option ℚ
  face_confidence : Option ℚ
  notes : String
deriving DecidableEq, Repr

/-- The `defaults=` dictionary passed to `Attendance.objects.update_or_create`
in api/views.py mark_attendance (lines 266-278). -/
structure MarkDefaults where
  status : Status
  verification_method : VMethod
  marked_by : Option ℕ
  location_lat : Option ℚ
  location_lng : Option ℚ
  face_confidence : Option ℚ
  notes : String
deriving DecidableEq, Repr

/-- Key predicate for the (session, student) uniqueness constraint. -/
def matchesKey (sess stud : ℕ) (r : AttRecord) : Bool :=
  r.sessionId == sess && r.studentId == stud

/-- The record produced by a mark with the given defaults (every non-key field
of the row is overwritten from `defaults`, both on create and on update). -/
def mkRecord (sess stud : ℕ) (d : MarkDefaults) : AttRecord :=
  { sessionId := sess, studentId := stud, status := d.status,
    verification_method := d.verification_method, marked_by := d.marked_by,
    location_lat := d.location_lat, location_lng := d.location_lng,
    face_confidence := d.face_confidence, notes := d.notes }

/-- Django's `Attendance.objects.update_or_create(session=.., student=..,
defaults=..)`: if a row with the key exists, overwrite its non-key fields and
return created=False; otherwise insert a fresh row and return created=True.
The database table is the list `db`. -/
def update_or_create (db : List AttRecord) (sess stud : ℕ) (d : MarkDefaults) :
    List AttRecord × Bool :=
  if db.any (matchesKey sess stud) then
    (db.map (fun r => if matchesKey sess stud r then mkRecord sess stud d else r), false)
  else
    (db ++ [mkRecord sess stud d], true)

/-- Queryset `Attendance.objects.filter(session=sess, student=stud)`. -/
def recordsFor (db : List AttRecord) (sess stud : ℕ) : List AttRecord :=
  db.filter (matchesKey sess stud)

/-- Queryset `Attendance.objects.filter(session=sess)`. -/
def sessionRecords (db : List AttRecord) (sess : ℕ) : List AttRecord :=
  db.filter (fun r => r.sessionId == sess)

/-- Error outcomes of the eligibility checks in api/views.py mark_attendance
(lines 248-263). -/
inductive MarkError
  | sessionNotActive
  | studentNotEnrolled
deriving DecidableEq, Repr

/-- mark_attendance (api/views.py, lines 232-305), restricted to its core:
reject when the session is inactive, reject when the student is not in
`session.course.students`, otherwise upsert the row.  Returns the (possibly
unchanged) table together with the outcome; on an error the table is returned
as it was (no Attendance row is created). -/
def mark_attendance (db : List AttRecord) (session : Session) (studentId : ℕ)
    (d : MarkDefaults) : List AttRecord × Except MarkError Bool :=
  if session.is_active = false then
    (db, .error .sessionNotActive)
  else if (session.courseStudents.any (fun s => s.id == studentId)) = false then
    (db, .error .studentNotEnrolled)
  else
    let res := update_or_create db session.id studentId d
    (res.1, .ok res.2)

/-- The row created by AutomatedAbsenteeDetector.auto_mark_absentees
(face_recognition/ai_engine.py, lines 307-315): status 'absent', verification
method hardcoded to 'manual', notes 'Auto-marked as absent'. -/
def mkAbsentRecord (sess stud : ℕ) (marked_by : Option ℕ) : AttRecord :=
  { sessionId := sess, studentId := stud, status := .absent,
    verification_method := .manual, marked_by := marked_by,
    location_lat := none, location_lng := none, face_confidence := none,
    notes := "Auto-marked as absent" }

/-- AutomatedAbsenteeDetector.auto_mark_absentees (face_recognition/
ai_engine.py, lines 284-319): enrolled = active students of the course;
marked = student ids having any record in the session; for each enrolled
student not in marked, create an absent row; return the count. -/
def auto_mark_absentees (db : List AttRecord) (session : Session)
    (marked_by : Option ℕ) : List AttRecord × ℕ :=
  let enrolled := session.courseStudents.filter (fun s => s.is_active)
  let markedIds := (db.filter (fun r => r.sessionId == session.id)).map (fun r => r.studentId)
  let unmarked := enrolled.filter (fun s => !(markedIds.contains s.id))
  (db ++ unmarked.map (fun s => mkAbsentRecord session.id s.id marked_by), unmarked.length)

theorem matchesKey_mkRecord (sess stud : ℕ) (d : MarkDefaults) :
    matchesKey sess stud (mkRecord sess stud d) = true := by
  simp [matchesKey, mkRecord]

/-- After one upsert, the table holds exactly one row for the key, all of
whose mutable fields come from the defaults (this holds in both the update
and the create branch, provided the table respected the uniqueness
constraint). -/
theorem upsert_recordsFor (db : List AttRecord) (sess stud : ℕ) (d : MarkDefaults)
    (hwf : (recordsFor db sess stud).length ≤ 1) :
    recordsFor (update_or_create db sess stud d).1 sess stud = [mkRecord sess stud d] := by
  unfold recordsFor at *
  unfold update_or_create
  by_cases h : db.any (matchesKey sess stud)
  · rw [if_pos h]
    simp only
    rw [List.filter_map]
    have hcongr : db.filter ((matchesKey sess stud) ∘
        (fun r => if matchesKey sess stud r then mkRecord sess stud d else r))
        = db.filter (matchesKey sess stud) := by
      apply List.filter_congr
      intro r _
      by_cases hr : matchesKey sess stud r
      · simp [hr, matchesKey_mkRecord]
      · simp [hr]
    rw [hcongr]
    have hpos : 1 ≤ (db.filter (matchesKey sess stud)).length := by
      rcases List.any_eq_true.mp h with ⟨x, hx, hpx⟩
      have : x ∈ db.filter (matchesKey sess stud) := List.mem_filter.mpr ⟨hx, hpx⟩
      exact List.length_pos.mpr (fun hnil => by simp [hnil] at this)
    have hone : (db.filter (matchesKey sess stud)).length = 1 := le_antisymm hwf hpos
    rcases List.length_eq_one.mp hone with ⟨a, ha⟩
    rw [ha]
    have hpa : matchesKey sess stud a = true := by
      have : a ∈ db.filter (matchesKey sess stud) := by rw [ha]; exact List.mem_singleton_self a
      exact (List.mem_filter.mp this).2
    simp [hpa]
  · rw [if_neg h]
    simp only
    rw [List.filter_append]
    have hnil : db.filter (matchesKey sess stud) = [] := by
      apply List.filter_eq_nil_iff.mpr
      intro a ha hpa
      exact h (List.any_eq_true.mpr ⟨a, ha, hpa⟩)
    rw [hnil]
    simp [matchesKey_mkRecord]

/-- Updating a row in place never changes how many rows a session has. -/
theorem upsert_existing_sessionRecords_length (db : List AttRecord) (sess stud : ℕ)
    (d : MarkDefaults) (h : db.any (matchesKey sess stud) = true) :
    (sessionRecords (update_or_create db sess stud d).1 sess).length
      = (sessionRecords db sess).length := by
  unfold update_or_create sessionRecords
  rw [if_pos h]
  simp only
  rw [List.filter_map]
  rw [List.length_map]
  congr 1
  apply List.filter_congr
  intro r _
  by_cases hr : matchesKey sess stud r
  · have hrs : r.sessionId = sess := by
      simp only [matchesKey, Bool.and_eq_true, beq_iff_eq] at hr
      exact hr.1
    simp [hr, mkRecord, hrs]
  · simp [hr]

/-- C1: marking the same (session, student) pair twice — with any, possibly
different, defaults — leaves exactly one Attendance row for that pair, that
row carries the status of the latest mark, and the number of rows the session
has is unchanged by the repeated mark.  The hypothesis is the uniqueness
invariant `unique_together = ['session', 'student']` of attendance/models.py
(lines 167-169), which every reachable table state satisfies. -/
theorem C1_repeated_mark_single_row (db : List AttRecord) (sess stud : ℕ)
    (d1 d2 : MarkDefaults)
    (hwf : (recordsFor db sess stud).length ≤ 1) :
    recordsFor (update_or_create (update_or_create db sess stud d1).1 sess stud d2).1 sess stud
        = [mkRecord sess stud d2]
    ∧ (mkRecord sess stud d2).status = d2.status
    ∧ (sessionRecords (update_or_create (update_or_create db sess stud d1).1 sess stud d2).1
          sess).length
        = (sessionRecords (update_or_create db sess stud d1).1 sess).length := by
  have h1 := upsert_recordsFor db sess stud d1 hwf
  have hwf1 : (recordsFor (update_or_create db sess stud d1).1 sess stud).length ≤ 1 := by
    rw [h1]
    simp
  have hany : (update_or_create db sess stud d1).1.any (matchesKey sess stud) = true := by
    have hmem : mkRecord sess stud d1 ∈ (update_or_create db sess stud d1).1 := by
      have : mkRecord sess stud d1 ∈
          recordsFor (update_or_create db sess stud d1).1 sess stud := by
        rw [h1]
        exact List.mem_singleton_self _
      exact (List.mem_filter.mp this).1
    exact List.any_eq_true.mpr ⟨_, hmem, matchesKey_mkRecord sess stud d1⟩
  exact ⟨upsert_recordsFor _ sess stud d2 hwf1, rfl,
    upsert_existing_sessionRecords_length _ sess stud d2 hany⟩

/-- Witness for C1 at a concrete input: empty table, session 1, student 2,
first mark present via manual entry, second mark absent via mobile GPS. -/
theorem C1_repeated_mark_single_row_witness :
    (recordsFor [] 1 2).length ≤ 1
    ∧ (recordsFor (update_or_create (update_or_create [] 1 2
          ⟨.present, .manual, none, none, none, none, ""⟩).1 1 2
          ⟨.absent, .mobile_gps, some 9, none, none, none, "late bus"⟩).1 1 2
        = [mkRecord 1 2 ⟨.absent, .mobile_gps, some 9, none, none, none, "late bus"⟩]
      ∧ (mkRecord 1 2 ⟨.absent, .mobile_gps, some 9, none, none, none, "late bus"⟩).status
          = Status.absent
      ∧ (sessionRecords (update_or_create (update_or_create [] 1 2
            ⟨.present, .manual, none, none, none, none, ""⟩).1 1 2
            ⟨.absent, .mobile_gps, some 9, none, none, none, "late bus"⟩).1 1).length
          = (sessionRecords (update_or_create [] 1 2
              ⟨.present, .manual, none, none, none, none, ""⟩).1 1).length) :=
  ⟨by decide,
    C1_repeated_mark_single_row [] 1 2
      ⟨.present, .manual, none, none, none, none, ""⟩
      ⟨.absent, .mobile_gps, some 9, none, none, none, "late bus"⟩ (by decide)⟩

/-- C6: a single mark attempt fails with SessionNotActive when the session is
inactive, fails with StudentNotEnrolled when the session is active but the
student is not in the course's enrollment set, and in both failure cases the
attendance table is returned unchanged (no row created); when the session is
active and the student is enrolled the check succeeds and the upsert runs. -/
theorem C6_eligibility_gates_mark (db : List AttRecord) (session : Session)
    (studentId : ℕ) (d : MarkDefaults) :
    (session.is_active = false →
        mark_attendance db session studentId d = (db, .error .sessionNotActive))
    ∧ (session.is_active = true →
        (session.courseStudents.any (fun s => s.id == studentId)) = false →
        mark_attendance db session studentId d = (db, .error .studentNotEnrolled))
    ∧ (session.is_active = true →
        (session.courseStudents.any (fun s => s.id == studentId)) = true →
        mark_attendance db session studentId d
          = ((update_or_create db session.id studentId d).1,
              .ok (update_or_create db session.id studentId d).2)) := by
  refine ⟨fun h => ?_, fun h1 h2 => ?_, fun h1 h2 => ?_⟩
  · simp [mark_attendance, h]
  · simp [mark_attendance, h1, h2]
  · simp [mark_attendance, h1, h2]

/-- Witness for C6 at concrete inputs: an inactive session rejects with
SessionNotActive; an active session rejects an unenrolled student with
StudentNotEnrolled leaving the table empty; the enrolled student 3 passes the
check and is inserted. -/
theorem C6_eligibility_gates_mark_witness :
    ((Session.mk 1 1 [⟨3, true, "a@x", "", none⟩] false).is_active = false
      ∧ mark_attendance [] ⟨1, 1, [⟨3, true, "a@x", "", none⟩], false⟩ 3
          ⟨.present, .manual, none, none, none, none, ""⟩
        = ([], .error .sessionNotActive))
    ∧ (mark_attendance [] ⟨1, 1, [⟨3, true, "a@x", "", none⟩], true⟩ 2
          ⟨.present, .manual, none, none, none, none, ""⟩
        = ([], .error .studentNotEnrolled))
    ∧ (mark_attendance [] ⟨1, 1, [⟨3, true, "a@x", "", none⟩], true⟩ 3
          ⟨.present, .manual, none, none, none, none, ""⟩
        = ((update_or_create [] 1 3 ⟨.present, .manual, none, none, none, none, ""⟩).1,
            .ok (update_or_create [] 1 3 ⟨.present, .manual, none, none, none, none, ""⟩).2)) :=
  ⟨⟨rfl, (C6_eligibility_gates_mark [] ⟨1, 1, [⟨3, true, "a@x", "", none⟩], false⟩ 3
      ⟨.present, .manual, none, none, none, none, ""⟩).1 rfl⟩,
    (C6_eligibility_gates_mark [] ⟨1, 1, [⟨3, true, "a@x", "", none⟩], true⟩ 2
      ⟨.present, .manual, none, none, none, none, ""⟩).2.1 rfl (by decide),
    (C6_eligibility_gates_mark [] ⟨1, 1, [⟨3, true, "a@x", "", none⟩], true⟩ 3
      ⟨.present, .manual, none, none, none, none, ""⟩).2.2 rfl (by decide)⟩

/-- A student id is among the marked ids of a session exactly when the table
holds a row for the (session, student) pair. -/
theorem mem_markedIds_iff (db : List AttRecord) (sess sid : ℕ) :
    sid ∈ (db.filter (fun r => r.sessionId == sess)).map (fun r => r.studentId)
      ↔ recordsFor db sess sid ≠ [] := by
  constructor
  · intro h hnil
    rcases List.mem_map.mp h with ⟨r, hr, hsid⟩
    rcases List.mem_filter.mp hr with ⟨hrdb, hrs⟩
    have hmem : r ∈ recordsFor db sess sid := by
      refine List.mem_filter.mpr ⟨hrdb, ?_⟩
      simp only [matchesKey, Bool.and_eq_true, beq_iff_eq]
      exact ⟨by simpa using hrs, hsid⟩
    rw [hnil] at hmem
    exact absurd hmem (List.not_mem_nil r)
  · intro hne
    obtain ⟨r, hmem⟩ : ∃ r, r ∈ recordsFor db sess sid := by
      cases hrec : recordsFor db sess sid with
      | nil => exact absurd hrec hne
      | cons a t => exact ⟨a, List.mem_cons_self a t⟩
    rcases List.mem_filter.mp hmem with ⟨hrdb, hk⟩
    simp only [matchesKey, Bool.and_eq_true, beq_iff_eq] at hk
    exact List.mem_map.mpr ⟨r, List.mem_filter.mpr ⟨hrdb, by simp [hk.1]⟩, hk.2⟩

/-- The boolean test `not (student_id in marked)` used by auto_mark_absentees
agrees with emptiness of the (session, student) row set. -/
theorem unmarked_test_eq (db : List AttRecord) (sess sid : ℕ) :
    (!((db.filter (fun r => r.sessionId == sess)).map (fun r => r.studentId)).contains sid)
      = (recordsFor db sess sid).isEmpty := by
  by_cases h : recordsFor db sess sid = []
  · have hnm : ¬ sid ∈ (db.filter (fun r => r.sessionId == sess)).map (fun r => r.studentId) :=
      fun hm => (mem_markedIds_iff db sess sid).mp hm h
    have hc : ((db.filter (fun r => r.sessionId == sess)).map
        (fun r => r.studentId)).contains sid = false := by
      by_contra hb
      rw [Bool.not_eq_false] at hb
      exact hnm (List.elem_iff.mp hb)
    rw [hc, h]
    rfl
  · have hc : ((db.filter (fun r => r.sessionId == sess)).map
        (fun r => r.studentId)).contains sid = true :=
      List.elem_iff.mpr ((mem_markedIds_iff db sess sid).mpr h)
    rw [hc]
    cases hrec : recordsFor db sess sid with
    | nil => exact absurd hrec h
    | cons a t => rfl

/-- Among the rows freshly created by auto_mark_absentees, an active enrolled
student who had no row in the session gets exactly one, the auto-absent row
(uses that the enrollment roster has no duplicate student ids). -/
theorem auto_mark_new_single (db : List AttRecord) (sess : ℕ) (L : List Student)
    (actor : Option ℕ) (hids : (L.map Student.id).Nodup)
    (s : Student) (hs : s ∈ L) (hact : s.is_active = true)
    (hun : recordsFor db sess s.id = []) :
    (((L.filter (fun t => t.is_active)).filter
        (fun t => !(((db.filter (fun r => r.sessionId == sess)).map
            (fun r => r.studentId)).contains t.id))).map
      (fun t => mkAbsentRecord sess t.id actor)).filter (matchesKey sess s.id)
      = [mkAbsentRecord sess s.id actor] := by
  have hnd : L.Nodup := List.Nodup.of_map _ hids
  rw [List.filter_map]
  have hcomp : ((L.filter (fun t => t.is_active)).filter
      (fun t => !(((db.filter (fun r => r.sessionId == sess)).map
          (fun r => r.studentId)).contains t.id))).filter
        ((matchesKey sess s.id) ∘ (fun t => mkAbsentRecord sess t.id actor))
      = ((L.filter (fun t => t.is_active)).filter
          (fun t => !(((db.filter (fun r => r.sessionId == sess)).map
              (fun r => r.studentId)).contains t.id))).filter
        (fun t => t.id == s.id) := by
    apply List.filter_congr
    intro t _
    simp [matchesKey, mkAbsentRecord, Function.comp]
  rw [hcomp, List.filter_filter, List.filter_filter]
  have hsingle : L.filter (fun t => ((t.id == s.id)
        && !(((db.filter (fun r => r.sessionId == sess)).map
            (fun r => r.studentId)).contains t.id)) && t.is_active)
      = [s] := by
    have hbeq : L.filter (fun t => t == s) = [s] := by
      rw [List.filter_beq L s, List.count_eq_one_of_mem hnd hs]
      rfl
    rw [← hbeq]
    apply List.filter_congr
    intro t ht
    by_cases hts : t = s
    · subst hts
      have h1 : (!(((db.filter (fun r => r.sessionId == sess)).map
          (fun r => r.studentId)).contains t.id)) = true := by
        rw [unmarked_test_eq db sess t.id, hun]
        rfl
      rw [h1]
      simp [hact]
    · have hid : t.id ≠ s.id := fun hteq =>
        hts (List.inj_on_of_nodup_map hids ht hs hteq)
      have h2 : (t.id == s.id) = false := beq_eq_false_iff_ne.mpr hid
      have h3 : (t == s) = false := beq_eq_false_iff_ne.mpr hts
      rw [h2, h3]
      simp
  rw [hsingle]
  rfl

/-- Auto-marking creates no row for a student who already has one in the
session. -/
theorem auto_mark_new_none (db : List AttRecord) (sess : ℕ) (L : List Student)
    (actor : Option ℕ) (sid : ℕ) (hne : recordsFor db sess sid ≠ []) :
    (((L.filter (fun t => t.is_active)).filter
        (fun t => !(((db.filter (fun r => r.sessionId == sess)).map
            (fun r => r.studentId)).contains t.id))).map
      (fun t => mkAbsentRecord sess t.id actor)).filter (matchesKey sess sid)
      = [] := by
  simp only [List.filter_eq_nil_iff]
  intro x hx hpx
  rcases List.mem_map.mp hx with ⟨t, ht, rfl⟩
  have hid : t.id = sid := by simpa [matchesKey, mkAbsentRecord] using hpx
  rcases List.mem_filter.mp ht with ⟨_, ht2⟩
  have hcont : ((db.filter (fun r => r.sessionId == sess)).map
      (fun r => r.studentId)).contains t.id = false := by simpa using ht2
  have hmem : t.id ∈ (db.filter (fun r => r.sessionId == sess)).map
      (fun r => r.studentId) := by
    rw [hid]
    exact (mem_markedIds_iff db sess sid).mpr hne
  have htrue : ((db.filter (fun r => r.sessionId == sess)).map
      (fun r => r.studentId)).contains t.id = true := List.elem_iff.mpr hmem
  rw [hcont] at htrue
  simp at htrue

/-- If every active enrolled student already has a row in the session,
auto_mark_absentees marks zero students. -/
theorem auto_mark_count_zero (db : List AttRecord) (session : Session)
    (actor : Option ℕ)
    (h : ∀ s ∈ session.courseStudents, s.is_active = true →
        recordsFor db session.id s.id ≠ []) :
    (auto_mark_absentees db session actor).2 = 0 := by
  simp only [auto_mark_absentees]
  rw [List.length_eq_zero]
  simp only [List.filter_eq_nil_iff]
  intro t ht hnt
  rcases List.mem_filter.mp ht with ⟨ht1, ht2⟩
  have hne := h t ht1 (by simpa using ht2)
  have hc : ((db.filter (fun r => r.sessionId == session.id)).map
      (fun r => r.studentId)).contains t.id = true :=
    List.elem_iff.mpr ((mem_markedIds_iff db session.id t.id).mpr hne)
  rw [hc] at hnt
  simp at hnt

/-- C3: auto_mark_absentees creates, for each active enrolled student with no
existing row in the session, exactly one new row with status 'absent', method
'manual' and notes 'Auto-marked as absent' (the content of mkAbsentRecord);
it leaves every already-marked student's rows unchanged whatever their
status; it returns the number of students so marked; and an immediate second
call marks zero additional students.  The hypothesis is that the enrollment
roster carries no duplicate student ids (it models a ManyToMany set keyed by
primary key). -/
theorem C3_auto_mark_absent_topup (db : List AttRecord) (session : Session)
    (actor : Option ℕ)
    (hids : (session.courseStudents.map Student.id).Nodup) :
    (∀ s ∈ session.courseStudents, s.is_active = true →
        recordsFor db session.id s.id = [] →
        recordsFor (auto_mark_absentees db session actor).1 session.id s.id
          = [mkAbsentRecord session.id s.id actor])
    ∧ (∀ sid : ℕ, recordsFor db session.id sid ≠ [] →
        recordsFor (auto_mark_absentees db session actor).1 session.id sid
          = recordsFor db session.id sid)
    ∧ (auto_mark_absentees db session actor).2
        = (session.courseStudents.filter
            (fun s => s.is_active && (recordsFor db session.id s.id).isEmpty)).length
    ∧ (auto_mark_absentees (auto_mark_absentees db session actor).1 session actor).2 = 0 := by
  have parta : ∀ s ∈ session.courseStudents, s.is_active = true →
      recordsFor db session.id s.id = [] →
      recordsFor (auto_mark_absentees db session actor).1 session.id s.id
        = [mkAbsentRecord session.id s.id actor] := by
    intro s hs hact hun
    show ((auto_mark_absentees db session actor).1).filter (matchesKey session.id s.id)
        = [mkAbsentRecord session.id s.id actor]
    simp only [auto_mark_absentees]
    rw [List.filter_append]
    rw [auto_mark_new_single db session.id session.courseStudents actor hids s hs hact hun]
    have hdb : db.filter (matchesKey session.id s.id) = [] := hun
    rw [hdb]
    rfl
  have partb : ∀ sid : ℕ, recordsFor db session.id sid ≠ [] →
      recordsFor (auto_mark_absentees db session actor).1 session.id sid
        = recordsFor db session.id sid := by
    intro sid hne
    show ((auto_mark_absentees db session actor).1).filter (matchesKey session.id sid)
        = recordsFor db session.id sid
    simp only [auto_mark_absentees]
    rw [List.filter_append]
    rw [auto_mark_new_none db session.id session.courseStudents actor sid hne]
    rw [List.append_nil]
    rfl
  refine ⟨parta, partb, ?_, ?_⟩
  · simp only [auto_mark_absentees]
    rw [List.filter_filter]
    congr 1
    apply List.filter_congr
    intro t _
    rw [unmarked_test_eq db session.id t.id]
    exact Bool.and_comm _ _
  · apply auto_mark_count_zero
    intro s hs hact
    by_cases h : recordsFor db session.id s.id = []
    · rw [parta s hs hact h]
      simp
    · rw [partb s.id h]
      exact h

/-- Witness for C3 at a concrete input: session 1 with active students 1 and
2, student 1 already marked present; auto-marking gives student 2 the
auto-absent row, keeps student 1's row, reports count 1, and a second call
reports 0. -/
theorem C3_auto_mark_absent_topup_witness :
    ((([⟨1, true, "a@x", "", none⟩, ⟨2, true, "b@x", "", none⟩] : List Student).map
        Student.id).Nodup
    ∧ recordsFor (auto_mark_absentees
          [⟨1, 1, .present, .manual, none, none, none, none, ""⟩]
          ⟨1, 9, [⟨1, true, "a@x", "", none⟩, ⟨2, true, "b@x", "", none⟩], true⟩ none).1 1 2
        = [mkAbsentRecord 1 2 none]
    ∧ recordsFor (auto_mark_absentees
          [⟨1, 1, .present, .manual, none, none, none, none, ""⟩]
          ⟨1, 9, [⟨1, true, "a@x", "", none⟩, ⟨2, true, "b@x", "", none⟩], true⟩ none).1 1 1
        = recordsFor [⟨1, 1, .present, .manual, none, none, none, none, ""⟩] 1 1
    ∧ (auto_mark_absentees [⟨1, 1, .present, .manual, none, none, none, none, ""⟩]
          ⟨1, 9, [⟨1, true, "a@x", "", none⟩, ⟨2, true, "b@x", "", none⟩], true⟩ none).2
        = (([⟨1, true, "a@x", "", none⟩, ⟨2, true, "b@x", "", none⟩] : List Student).filter
            (fun s => s.is_active && (recordsFor
              [⟨1, 1, .present, .manual, none, none, none, none, ""⟩] 1 s.id).isEmpty)).length
    ∧ (auto_mark_absentees (auto_mark_absentees
          [⟨1, 1, .present, .manual, none, none, none, none, ""⟩]
          ⟨1, 9, [⟨1, true, "a@x", "", none⟩, ⟨2, true, "b@x", "", none⟩], true⟩ none).1
          ⟨1, 9, [⟨1, true, "a@x", "", none⟩, ⟨2, true, "b@x", "", none⟩], true⟩ none).2 = 0) := by
  have h := C3_auto_mark_absent_topup
    [⟨1, 1, .present, .manual, none, none, none, none, ""⟩]
    ⟨1, 9, [⟨1, true, "a@x", "", none⟩, ⟨2, true, "b@x", "", none⟩], true⟩ none (by decide)
  exact ⟨by decide,
    h.1 ⟨2, true, "b@x", "", none⟩ (by decide) rfl (by decide),
    h.2.1 1 (by decide), h.2.2.1, h.2.2.2⟩

/-- Default threshold `self.attendance_threshold = 75` set in
AutomatedAbsenteeDetector.__init__ (face_recognition/ai_engine.py, line 253). -/
def attendance_threshold : ℚ := 75

/-- The percentage computed per student inside
check_low_attendance_students: present-or-late records over total records,
times 100, with no rounding. -/
def low_att_percentage (db : List AttRecord) (sid : ℕ) : ℚ :=
  (((db.filter (fun r => r.studentId == sid)).filter
      (fun r => r.status == Status.present || r.status == Status.late)).length : ℚ)
    / ((db.filter (fun r => r.studentId == sid)).length : ℚ) * 100

/-- AutomatedAbsenteeDetector.check_low_attendance_students
(face_recognition/ai_engine.py, lines 321-355): iterate the active students,
aggregate each student's records into total and present-or-late counts, and
keep (student, percentage) when `total > 0` and the raw percentage is strictly
below the threshold.  The optional course argument only narrows `students` and
`db` (it filters students by enrollment and records by the course's sessions)
and is represented here by the caller pre-restricting those lists. -/
def check_low_attendance_students (students : List Student) (db : List AttRecord)
    (threshold : ℚ) : List (Student × ℚ) :=
  (students.filter (fun s => s.is_active)).filterMap (fun student =>
    let records := db.filter (fun r => r.studentId == student.id)
    let total := records.length
    let p := (records.filter (fun r => r.status == Status.present
        || r.status == Status.late)).length
    if 0 < total then
      if ((p : ℚ) / (total : ℚ)) * 100 < threshold then
        some (student, ((p : ℚ) / (total : ℚ)) * 100)
      else none
    else none)

/-- C7: a student with zero Attendance records in scope never appears in the
low-attendance output, whatever the threshold — the `total > 0` guard runs
before any percentage is computed; and an active listed student who does have
records appears exactly when their present-or-late percentage is strictly
below the threshold (75 by default, `attendance_threshold`). -/
theorem C7_zero_total_excluded (students : List Student) (db : List AttRecord)
    (threshold : ℚ) :
    (∀ (s : Student) (p : ℚ), (s, p) ∈ check_low_attendance_students students db threshold →
        db.filter (fun r => r.studentId == s.id) ≠ [])
    ∧ (∀ s ∈ students, s.is_active = true →
        db.filter (fun r => r.studentId == s.id) ≠ [] →
        ((s, low_att_percentage db s.id) ∈ check_low_attendance_students students db threshold
          ↔ low_att_percentage db s.id < threshold)) := by
  constructor
  · intro s p hmem
    simp only [check_low_attendance_students, List.mem_filterMap] at hmem
    obtain ⟨a, _, hfa⟩ := hmem
    by_cases htot : 0 < (db.filter (fun r => r.studentId == a.id)).length
    · rw [if_pos htot] at hfa
      by_cases hlt : (((db.filter (fun r => r.studentId == a.id)).filter
          (fun r => r.status == Status.present || r.status == Status.late)).length : ℚ)
            / ((db.filter (fun r => r.studentId == a.id)).length : ℚ) * 100 < threshold
      · rw [if_pos hlt] at hfa
        obtain ⟨rfl, -⟩ : a = s ∧ (((db.filter (fun r => r.studentId == a.id)).filter
            (fun r => r.status == Status.present || r.status == Status.late)).length : ℚ)
              / ((db.filter (fun r => r.studentId == a.id)).length : ℚ) * 100 = p := by
          have := Option.some.inj hfa
          exact ⟨congrArg Prod.fst this, congrArg Prod.snd this⟩
        exact List.ne_nil_of_length_pos htot
      · rw [if_neg hlt] at hfa
        exact absurd hfa (by simp)
    · rw [if_neg htot] at hfa
      exact absurd hfa (by simp)
  · intro s hs hact hne
    have htot : 0 < (db.filter (fun r => r.studentId == s.id)).length :=
      List.length_pos.mpr hne
    constructor
    · intro hmem
      simp only [check_low_attendance_students, List.mem_filterMap] at hmem
      obtain ⟨a, _, hfa⟩ := hmem
      by_cases htot2 : 0 < (db.filter (fun r => r.studentId == a.id)).length
      · rw [if_pos htot2] at hfa
        by_cases hlt : (((db.filter (fun r => r.studentId == a.id)).filter
            (fun r => r.status == Status.present || r.status == Status.late)).length : ℚ)
              / ((db.filter (fun r => r.studentId == a.id)).length : ℚ) * 100 < threshold
        · rw [if_pos hlt] at hfa
          have hpair := Option.some.inj hfa
          have ha : a = s := congrArg Prod.fst hpair
          have hp : (((db.filter (fun r => r.studentId == a.id)).filter
              (fun r => r.status == Status.present || r.status == Status.late)).length : ℚ)
                / ((db.filter (fun r => r.studentId == a.id)).length : ℚ) * 100
              = low_att_percentage db s.id := congrArg Prod.snd hpair
          rw [hp] at hlt
          exact hlt
        · rw [if_neg hlt] at hfa
          exact absurd hfa (by simp)
      · rw [if_neg htot2] at hfa
        exact absurd hfa (by simp)
    · intro hlt
      simp only [check_low_attendance_students, List.mem_filterMap]
      refine ⟨s, List.mem_filter.mpr ⟨hs, hact⟩, ?_⟩
      have hfold : (((db.filter (fun r => r.studentId == s.id)).filter
          (fun r => r.status == Status.present || r.status == Status.late)).length : ℚ)
            / ((db.filter (fun r => r.studentId == s.id)).length : ℚ) * 100
          = low_att_percentage db s.id := rfl
      rw [if_pos htot, hfold, if_pos hlt]

/-- Witness for C7 at a concrete input: one active student with a single
absent record; the record set is non-empty, the percentage 0 is below the
default threshold 75, and the student appears in the output paired with 0. -/
theorem C7_zero_total_excluded_witness :
    (([⟨5, 1, .absent, .manual, none, none, none, none, ""⟩] : List AttRecord).filter
        (fun r => r.studentId == (⟨1, true, "a@x", "", none⟩ : Student).id) ≠ []
    ∧ low_att_percentage [⟨5, 1, .absent, .manual, none, none, none, none, ""⟩]
        (⟨1, true, "a@x", "", none⟩ : Student).id < attendance_threshold
    ∧ ((⟨1, true, "a@x", "", none⟩ : Student), low_att_percentage
          [⟨5, 1, .absent, .manual, none, none, none, none, ""⟩]
          (⟨1, true, "a@x", "", none⟩ : Student).id)
        ∈ check_low_attendance_students [⟨1, true, "a@x", "", none⟩]
            [⟨5, 1, .absent, .manual, none, none, none, none, ""⟩] attendance_threshold) := by
  have hne : ([⟨5, 1, .absent, .manual, none, none, none, none, ""⟩] : List AttRecord).filter
      (fun r => r.studentId == (⟨1, true, "a@x", "", none⟩ : Student).id) ≠ [] := by decide
  have hshow : low_att_percentage [⟨5, 1, .absent, .manual, none, none, none, none, ""⟩]
      (⟨1, true, "a@x", "", none⟩ : Student).id = ((0 : ℕ) : ℚ) / ((1 : ℕ) : ℚ) * 100 := rfl
  have hlt : low_att_percentage [⟨5, 1, .absent, .manual, none, none, none, none, ""⟩]
      (⟨1, true, "a@x", "", none⟩ : Student).id < attendance_threshold := by
    rw [hshow]
    norm_num [attendance_threshold]
  exact ⟨hne, hlt,
    ((C7_zero_total_excluded [⟨1, true, "a@x", "", none⟩]
        [⟨5, 1, .absent, .manual, none, none, none, none, ""⟩] attendance_threshold).2
      ⟨1, true, "a@x", "", none⟩ (List.mem_singleton_self _) rfl hne).mpr hlt⟩

/-- A Python value as it occurs in the two sets built by
detect_session_absentees: `enrolled_students` holds Student model instances,
`present_students` holds plain ints (the result of
`values_list('student', flat=True)`). -/
inductive PyVal where
  | studentObj (s : Student)
  | intVal (n : ℕ)
deriving DecidableEq, Repr

/-- Python equality as the two element kinds compare in CPython with Django:
`Model.__eq__` returns NotImplemented for a non-Model operand and
`int.__eq__` returns NotImplemented for a Model operand, so a Student
instance and an int are never equal (Python then falls back to identity);
two Student instances are equal when their primary keys are; two ints are
equal as numbers. -/
def pyEq : PyVal → PyVal → Bool
  | .studentObj a, .studentObj b => a.id == b.id
  | .intVal a, .intVal b => a == b
  | _, _ => false

/-- AutomatedAbsenteeDetector.detect_session_absentees
(face_recognition/ai_engine.py, lines 255-282), embedded as written:
`enrolled_students = set(session.course.students.filter(is_active=True))`
(Student objects), `present_students = set(...values_list('student',
flat=True))` (ints), and `absent_students = enrolled_students -
present_students` with membership decided by `pyEq`. -/
def detect_session_absentees (session : Session) (db : List AttRecord) : List Student :=
  let enrolled_students : List PyVal :=
    (session.courseStudents.filter (fun s => s.is_active)).map PyVal.studentObj
  let present_students : List PyVal :=
    (db.filter (fun r => r.sessionId == session.id
        && (r.status == Status.present || r.status == Status.late))).map
      (fun r => PyVal.intVal r.studentId)
  let absent_students :=
    enrolled_students.filter (fun x => !(present_students.any (fun y => pyEq x y)))
  absent_students.filterMap (fun x => match x with
    | .studentObj s => some s
    | .intVal _ => none)

/-- The set difference in detect_session_absentees removes nothing, because a
Student object never compares equal to an int id: the function returns every
active enrolled student no matter what is marked. -/
theorem detect_session_absentees_eq_enrolled (session : Session) (db : List AttRecord) :
    detect_session_absentees session db
      = session.courseStudents.filter (fun s => s.is_active) := by
  simp only [detect_session_absentees]
  have hfilter : ((session.courseStudents.filter (fun s => s.is_active)).map
        PyVal.studentObj).filter
      (fun x => !(((db.filter (fun r => r.sessionId == session.id
          && (r.status == Status.present || r.status == Status.late))).map
        (fun r => PyVal.intVal r.studentId)).any (fun y => pyEq x y)))
      = (session.courseStudents.filter (fun s => s.is_active)).map PyVal.studentObj := by
    apply List.filter_eq_self.mpr
    intro x hx
    rcases List.mem_map.mp hx with ⟨s, _, rfl⟩
    have hnone : ((db.filter (fun r => r.sessionId == session.id
        && (r.status == Status.present || r.status == Status.late))).map
      (fun r => PyVal.intVal r.studentId)).any
        (fun y => pyEq (PyVal.studentObj s) y) = false := by
      rw [List.any_eq_false]
      intro y hy
      rcases List.mem_map.mp hy with ⟨r, _, rfl⟩
      simp [pyEq]
    rw [hnone]
    rfl
  rw [hfilter]
  rw [List.filterMap_map]
  have : ∀ L : List Student, L.filterMap (fun s => some s) = L := by
    intro L
    induction L with
    | nil => rfl
    | cons a t ih => simp [List.filterMap_cons, ih]
  exact this _

/-- C9: evaluation at the failing input.  Session 1's course has the single
active student 1, and the table holds a row marking student 1 present in
session 1; the claim says detect_session_absentees excludes present-marked
students, yet the code returns student 1 — the subtraction of a set of int
ids from a set of Student objects removes nothing under Python/Django
equality. -/
theorem C9_detect_absentees_ignores_marks :
    detect_session_absentees
        ⟨1, 9, [⟨1, true, "a@x", "", none⟩], true⟩
        [⟨1, 1, .present, .face_recognition, none, none, none, some 95, ""⟩]
      = [⟨1, true, "a@x", "", none⟩]
    ∧ ([⟨1, 1, .present, .face_recognition, none, none, none, some 95, ""⟩]
        : List AttRecord).filter
          (fun r => r.sessionId == 1
            && (r.status == Status.present || r.status == Status.late)) ≠ [] := by
  constructor
  · rw [detect_session_absentees_eq_enrolled]
    rfl
  · intro h
    simpa using congrArg List.length h

/-- Overall stats returned by StudentViewSet.attendance_stats
(api/views.py, lines 102-114). -/
structure StudentStats where
  total : ℕ
  present : ℕ
  absent : ℕ
  late : ℕ
  attendance_percentage : ℚ
deriving DecidableEq, Repr

/-- One entry of course_wise_stats in StudentViewSet.attendance_stats
(api/views.py, lines 117-133). -/
structure CourseStat where
  courseId : ℕ
  total : ℕ
  present : ℕ
  absent : ℕ
  percentage : ℚ
deriving DecidableEq, Repr

/-- The course a record belongs to through its session
(`records.filter(session__course=course)`). -/
def recordCourse (sessions : List Session) (r : AttRecord) : Option ℕ :=
  (sessions.find? (fun s => s.id == r.sessionId)).map (fun s => s.courseId)

/-- StudentViewSet.attendance_stats (api/views.py, lines 97-142): overall
counts of the student's records by status with
`attendance_percentage = round((present + late) / (total or 1) * 100, 1)`,
then per enrolled course the filtered aggregate with
`percentage = round(present / (total or 1) * 100, 1)` — the per-course
aggregate has no late count and its numerator is present only.  `courses` is
`student.courses.all()` as a list of course ids. -/
def attendance_stats (db : List AttRecord) (studentId : ℕ) (sessions : List Session)
    (courses : List ℕ) : StudentStats × List CourseStat :=
  let records := db.filter (fun r => r.studentId == studentId)
  let total := records.length
  let p := (records.filter (fun r => r.status == Status.present)).length
  let a := (records.filter (fun r => r.status == Status.absent)).length
  let l := (records.filter (fun r => r.status == Status.late)).length
  let t := if total = 0 then 1 else total
  let overall : StudentStats :=
    { total := total, present := p, absent := a, late := l,
      attendance_percentage := pyRound1 ((((p : ℚ) + (l : ℚ)) / (t : ℚ)) * 100) }
  let course_stats := courses.map (fun c =>
    let crecords := records.filter (fun r => recordCourse sessions r == some c)
    let ct := crecords.length
    let cp := (crecords.filter (fun r => r.status == Status.present)).length
    let ca := (crecords.filter (fun r => r.status == Status.absent)).length
    let ct1 := if ct = 0 then 1 else ct
    ({ courseId := c, total := ct, present := cp, absent := ca,
        percentage := pyRound1 (((cp : ℚ) / (ct1 : ℚ)) * 100) } : CourseStat))
  (overall, course_stats)

/-- C10: the overall attendance_percentage counts present and late in its
numerator, each per-course percentage equals round(100 * present /
max(total, 1), 1) counting only 'present'; consequently a student whose two
records in course 1 are both 'late' gets per-course percentage 0 while the
overall percentage from those same records is 100. -/
theorem C10_course_stats_present_only (db : List AttRecord) (studentId : ℕ)
    (sessions : List Session) (courses : List ℕ) :
    ((attendance_stats db studentId sessions courses).1.attendance_percentage
        = pyRound1 (100 * (((attendance_stats db studentId sessions courses).1.present : ℚ)
            + ((attendance_stats db studentId sessions courses).1.late : ℚ))
          / ((max (attendance_stats db studentId sessions courses).1.total 1 : ℕ) : ℚ)))
    ∧ (∀ stat ∈ (attendance_stats db studentId sessions courses).2,
        stat.percentage
          = pyRound1 (100 * (stat.present : ℚ) / ((max stat.total 1 : ℕ) : ℚ)))
    ∧ ((attendance_stats
          [⟨1, 4, .late, .manual, none, none, none, none, ""⟩,
           ⟨2, 4, .late, .manual, none, none, none, none, ""⟩] 4
          [⟨1, 1, [], true⟩, ⟨2, 1, [], true⟩] [1]).2
        = [⟨1, 2, 0, 0, 0⟩]
      ∧ (attendance_stats
          [⟨1, 4, .late, .manual, none, none, none, none, ""⟩,
           ⟨2, 4, .late, .manual, none, none, none, none, ""⟩] 4
          [⟨1, 1, [], true⟩, ⟨2, 1, [], true⟩] [1]).1.attendance_percentage = 100) := by
  refine ⟨?_, ?_, ?_, ?_⟩
  · simp only [attendance_stats, python_or_eq_max]
    congr 1
    ring
  · intro stat hmem
    simp only [attendance_stats, List.mem_map] at hmem
    obtain ⟨c, _, rfl⟩ := hmem
    simp only [python_or_eq_max]
    congr 1
    ring
  · have h1 : (attendance_stats
        [⟨1, 4, .late, .manual, none, none, none, none, ""⟩,
         ⟨2, 4, .late, .manual, none, none, none, none, ""⟩] 4
        [⟨1, 1, [], true⟩, ⟨2, 1, [], true⟩] [1]).2
        = [⟨1, 2, 0, 0, pyRound1 ((((0 : ℕ) : ℚ) / ((2 : ℕ) : ℚ)) * 100)⟩] := rfl
    rw [h1]
    have h2 : pyRound1 ((((0 : ℕ) : ℚ) / ((2 : ℕ) : ℚ)) * 100) = 0 := by
      norm_num [pyRound1, pyRoundInt]
    rw [h2]
  · have h1 : (attendance_stats
        [⟨1, 4, .late, .manual, none, none, none, none, ""⟩,
         ⟨2, 4, .late, .manual, none, none, none, none, ""⟩] 4
        [⟨1, 1, [], true⟩, ⟨2, 1, [], true⟩] [1]).1.attendance_percentage
        = pyRound1 (((((0 : ℕ) : ℚ) + ((2 : ℕ) : ℚ)) / ((2 : ℕ) : ℚ)) * 100) := rfl
    rw [h1]
    norm_num [pyRound1, pyRoundInt]

/-- Witness for C10 at the all-late concrete input: the per-course entry for
course 1 is in the output and satisfies the present-only percentage
formula. -/
theorem C10_course_stats_present_only_witness :
    (⟨1, 2, 0, 0, pyRound1 ((((0 : ℕ) : ℚ) / ((2 : ℕ) : ℚ)) * 100)⟩ : CourseStat)
        ∈ (attendance_stats
            [⟨1, 4, .late, .manual, none, none, none, none, ""⟩,
             ⟨2, 4, .late, .manual, none, none, none, none, ""⟩] 4
            [⟨1, 1, [], true⟩, ⟨2, 1, [], true⟩] [1]).2
    ∧ (⟨1, 2, 0, 0, pyRound1 ((((0 : ℕ) : ℚ) / ((2 : ℕ) : ℚ)) * 100)⟩ : CourseStat).percentage
        = pyRound1 (100
            * ((⟨1, 2, 0, 0, pyRound1 ((((0 : ℕ) : ℚ) / ((2 : ℕ) : ℚ)) * 100)⟩
                : CourseStat).present : ℚ)
          / ((max (⟨1, 2, 0, 0, pyRound1 ((((0 : ℕ) : ℚ) / ((2 : ℕ) : ℚ)) * 100)⟩
                : CourseStat).total 1 : ℕ) : ℚ)) := by
  have hmem : (⟨1, 2, 0, 0, pyRound1 ((((0 : ℕ) : ℚ) / ((2 : ℕ) : ℚ)) * 100)⟩ : CourseStat)
      ∈ (attendance_stats
          [⟨1, 4, .late, .manual, none, none, none, none, ""⟩,
           ⟨2, 4, .late, .manual, none, none, none, none, ""⟩] 4
          [⟨1, 1, [], true⟩, ⟨2, 1, [], true⟩] [1]).2 := by
    rw [show (attendance_stats
        [⟨1, 4, .late, .manual, none, none, none, none, ""⟩,
         ⟨2, 4, .late, .manual, none, none, none, none, ""⟩] 4
        [⟨1, 1, [], true⟩, ⟨2, 1, [], true⟩] [1]).2
        = [⟨1, 2, 0, 0, pyRound1 ((((0 : ℕ) : ℚ) / ((2 : ℕ) : ℚ)) * 100)⟩] from rfl]
    exact List.mem_singleton_self _
  exact ⟨hmem, ((C10_course_stats_present_only
      [⟨1, 4, .late, .manual, none, none, none, none, ""⟩,
       ⟨2, 4, .late, .manual, none, none, none, none, ""⟩] 4
      [⟨1, 1, [], true⟩, ⟨2, 1, [], true⟩] [1]).2.1) _ hmem⟩

/-- Notification.NOTIFICATION_TYPES (notifications/models.py), restricted to
the types the attendance flow creates. -/
inductive NType
  | absence
  | low_attendance
  | attendance_marked
deriving DecidableEq, Repr

/-- NotificationLog.CHANNELS (notifications/models.py, lines 135-139). -/
inductive Channel
  | email
  | sms
  | push
deriving DecidableEq, Repr

/-- Notification (notifications/models.py, lines 11-75): the fields the
claims touch.  `attendance` is the nullable foreign key to the triggering
Attendance row, represented by that row's (sessionId, studentId) key — the
pair identifies the row by the unique_together constraint.  Channel defaults
are send_email=True is set by the caller, send_sms defaults to False,
send_push is set by the caller; title/message/priority and read state are not
modelled. -/
structure Notification where
  studentId : ℕ
  notification_type : NType
  attendance : Option (ℕ × ℕ)
  send_email : Bool
  send_sms : Bool
  send_push : Bool
  is_sent : Bool
  email_sent : Bool
  sms_sent : Bool
  push_sent : Bool
deriving DecidableEq, Repr

/-- ParentNotification (notifications/models.py, lines 78-113): the fields
the absentee flow writes. -/
structure ParentNotification where
  parent : Parent
  studentId : ℕ
  notification_type : NType
  email_sent : Bool
  sms_sent : Bool
deriving DecidableEq, Repr

/-- NotificationLog (notifications/models.py, lines 133-174): one row per
delivery attempt; the simulated sender always writes status='sent', so only
channel and recipient are modelled. -/
structure NotificationLog where
  channel : Channel
  recipient : String
deriving DecidableEq, Repr

/-- The notification tables as explicit state. -/
structure NotifState where
  notifications : List Notification
  parentNotifications : List ParentNotification
  logs : List NotificationLog
deriving DecidableEq, Repr

/-- _simulate_send_notification (notifications/utils.py, lines 228-274): set
is_sent, then per channel — email when send_email; SMS when send_sms and the
student has a phone; push when send_push — append one NotificationLog row and
flip the matching *_sent flag. -/
def simulate_send_notification (student : Student) (n : Notification)
    (logs : List NotificationLog) : Notification × List NotificationLog :=
  let n1 : Notification := { n with is_sent := true }
  let step1 : Notification × List NotificationLog :=
    if n1.send_email then
      ({ n1 with email_sent := true }, logs ++ [⟨.email, student.email⟩])
    else (n1, logs)
  let step2 : Notification × List NotificationLog :=
    if step1.1.send_sms && !(student.phone == "") then
      ({ step1.1 with sms_sent := true }, step1.2 ++ [⟨.sms, student.phone⟩])
    else step1
  if step2.1.send_push then
    ({ step2.1 with push_sent := true },
      step2.2 ++ [⟨.push, "device_" ++ toString student.id⟩])
  else step2

/-- _simulate_send_parent_notification (notifications/utils.py, lines
277-309): always an email log, an SMS log when the parent has a phone. -/
def simulate_send_parent_notification (pn : ParentNotification)
    (logs : List NotificationLog) : ParentNotification × List NotificationLog :=
  let pn1 : ParentNotification := { pn with email_sent := true }
  let logs1 := logs ++ [⟨.email, pn.parent.email⟩]
  if !(pn.parent.phone == "") then
    ({ pn1 with sms_sent := true }, logs1 ++ [⟨.sms, pn.parent.phone⟩])
  else (pn1, logs1)

/-- The dedup key of send_single_absentee_notification:
`Notification.objects.filter(student=student, attendance=attendance,
notification_type='absence')`. -/
def absenceKeyed (student : Student) (attendance : AttRecord) (n : Notification) : Bool :=
  n.studentId == student.id
    && n.attendance == some (attendance.sessionId, attendance.studentId)
    && n.notification_type == NType.absence

/-- The absence notification as created (send_email=True, send_push=True,
send_sms left at its model default False) by both absentee paths
(notifications/utils.py, lines 32-52 and 110-125). -/
def mkAbsenceNotification (studentId : ℕ) (attendance : AttRecord) : Notification :=
  { studentId := studentId, notification_type := .absence,
    attendance := some (attendance.sessionId, attendance.studentId),
    send_email := true, send_sms := false, send_push := true,
    is_sent := false, email_sent := false, sms_sent := false, push_sent := false }

/-- send_single_absentee_notification (notifications/utils.py, lines 86-140):
return None unless the record's status is absent; no-op when an absence
notification for (student, attendance) already exists; otherwise create the
notification, simulate its channels, and — when the student has a parent —
create and send the parent notification.  `student` is
`attendance.student`, passed explicitly. -/
def send_single_absentee_notification (student : Student) (attendance : AttRecord)
    (st : NotifState) : NotifState × Option Notification :=
  if attendance.status != Status.absent then (st, none)
  else if st.notifications.any (absenceKeyed student attendance) then (st, none)
  else
    let res := simulate_send_notification student
      (mkAbsenceNotification student.id attendance) st.logs
    let st1 : NotifState :=
      { st with notifications := st.notifications ++ [res.1], logs := res.2 }
    match student.parent with
    | some parent =>
        let pres := simulate_send_parent_notification
          ⟨parent, student.id, .absence, false, false⟩ st1.logs
        let st2 : NotifState := { st1 with
          parentNotifications := st1.parentNotifications ++ [pres.1],
          logs := pres.2 }
        (st2, some res.1)
    | none => (st1, some res.1)

/-- Student lookup standing for the `record.student` foreign-key access in
the bulk path; in the database the key always resolves, so the fallback is
unreachable on well-formed inputs. -/
def lookupStudent (students : List Student) (sid : ℕ) : Student :=
  (students.find? (fun s => s.id == sid)).getD ⟨sid, true, "", "", none⟩

/-- The loop body of send_absentee_notifications (notifications/utils.py,
lines 28-81): create the absence notification unconditionally — there is no
existing-notification check in this path — simulate its channels, create and
send the parent notification when a parent exists, and increment the
created counter. -/
def bulk_notify_step (students : List Student) (acc : NotifState × ℕ)
    (record : AttRecord) : NotifState × ℕ :=
  let student := lookupStudent students record.studentId
  let res := simulate_send_notification student
    (mkAbsenceNotification student.id record) acc.1.logs
  let st1 : NotifState :=
    { acc.1 with notifications := acc.1.notifications ++ [res.1], logs := res.2 }
  let st2 : NotifState :=
    match student.parent with
    | some parent =>
        let pres := simulate_send_parent_notification
          ⟨parent, student.id, .absence, false, false⟩ st1.logs
        { st1 with
          parentNotifications := st1.parentNotifications ++ [pres.1],
          logs := pres.2 }
    | none => st1
  (st2, acc.2 + 1)

/-- send_absentee_notifications (notifications/utils.py, lines 13-83): fold
the unconditional per-record step over the session's absent records, starting
from 0 created. -/
def send_absentee_notifications (session : Session) (students : List Student)
    (db : List AttRecord) (st : NotifState) : NotifState × ℕ :=
  (db.filter (fun r => r.sessionId == session.id && r.status == Status.absent)).foldl
    (bulk_notify_step students) (st, 0)

/-- The absence notification after the simulated send: is_sent, email_sent
and push_sent are set; sms stays unsent because send_sms defaulted to
False. -/
def sentAbsenceNotification (studentId : ℕ) (attendance : AttRecord) : Notification :=
  { studentId := studentId, notification_type := .absence,
    attendance := some (attendance.sessionId, attendance.studentId),
    send_email := true, send_sms := false, send_push := true,
    is_sent := true, email_sent := true, sms_sent := false, push_sent := true }

theorem simulate_absence_run (student : Student) (sid : ℕ) (attendance : AttRecord)
    (logs : List NotificationLog) :
    simulate_send_notification student (mkAbsenceNotification sid attendance) logs
      = (sentAbsenceNotification sid attendance,
          logs ++ [⟨.email, student.email⟩, ⟨.push, "device_" ++ toString student.id⟩]) := by
  simp [simulate_send_notification, mkAbsenceNotification, sentAbsenceNotification]

theorem simulate_parent_run (parent : Parent) (sid : ℕ) (logs : List NotificationLog) :
    simulate_send_parent_notification ⟨parent, sid, .absence, false, false⟩ logs
      = (⟨parent, sid, .absence, true, !(parent.phone == "")⟩,
          (logs ++ [⟨.email, parent.email⟩])
            ++ (if parent.phone == "" then [] else [⟨Channel.sms, parent.phone⟩])) := by
  by_cases h : parent.phone == ""
  · simp [simulate_send_parent_notification, h]
  · simp [simulate_send_parent_notification, h]

/-- First run of the single-notification path when the student has no
parent. -/
theorem single_notify_run_none (student : Student) (attendance : AttRecord)
    (st : NotifState) (habsent : attendance.status = Status.absent)
    (hfresh : st.notifications.any (absenceKeyed student attendance) = false)
    (hpar : student.parent = none) :
    send_single_absentee_notification student attendance st
      = ({ st with
            notifications := st.notifications
              ++ [sentAbsenceNotification student.id attendance],
            logs := st.logs ++ [⟨.email, student.email⟩,
              ⟨.push, "device_" ++ toString student.id⟩] },
          some (sentAbsenceNotification student.id attendance)) := by
  unfold send_single_absentee_notification
  rw [if_neg (by simp [habsent]), if_neg (by simp [hfresh])]
  simp only [simulate_absence_run]
  rw [hpar]

/-- First run of the single-notification path when the student has a
parent: the parent notification is appended and the parent's channel logs
follow the student's. -/
theorem single_notify_run_some (student : Student) (attendance : AttRecord)
    (st : NotifState) (p : Parent) (habsent : attendance.status = Status.absent)
    (hfresh : st.notifications.any (absenceKeyed student attendance) = false)
    (hpar : student.parent = some p) :
    send_single_absentee_notification student attendance st
      = ({ st with
            notifications := st.notifications
              ++ [sentAbsenceNotification student.id attendance],
            parentNotifications := st.parentNotifications
              ++ [⟨p, student.id, .absence, true, !(p.phone == "")⟩],
            logs := ((st.logs ++ [⟨.email, student.email⟩,
                ⟨.push, "device_" ++ toString student.id⟩]) ++ [⟨.email, p.email⟩])
              ++ (if p.phone == "" then [] else [⟨Channel.sms, p.phone⟩]) },
          some (sentAbsenceNotification student.id attendance)) := by
  unfold send_single_absentee_notification
  rw [if_neg (by simp [habsent]), if_neg (by simp [hfresh])]
  simp only [simulate_absence_run]
  rw [hpar]
  simp only [simulate_parent_run]

/-- The created row matches the dedup key. -/
theorem absenceKeyed_sent (student : Student) (attendance : AttRecord) :
    absenceKeyed student attendance
      (sentAbsenceNotification student.id attendance) = true := by
  simp [absenceKeyed, sentAbsenceNotification]

/-- In both parent cases, the first run appends exactly the sent absence
notification to the notifications table. -/
theorem single_notify_notifications (student : Student) (attendance : AttRecord)
    (st : NotifState) (habsent : attendance.status = Status.absent)
    (hfresh : st.notifications.any (absenceKeyed student attendance) = false) :
    (send_single_absentee_notification student attendance st).1.notifications
      = st.notifications ++ [sentAbsenceNotification student.id attendance] := by
  cases hpar : student.parent with
  | none => rw [single_notify_run_none student attendance st habsent hfresh hpar]
  | some p => rw [single_notify_run_some student attendance st p habsent hfresh hpar]

/-- C4: for an absent Attendance record with no prior absence notification,
running the single-record path leaves exactly one notification for the
(student, attendance, type=absence) key; exactly one NotificationLog entry is
written per enabled channel (email and push for the student — send_sms is off
by default — plus parent email, and parent SMS only when the parent has a
phone); and running it a second time is a no-op returning None: no
Notification, ParentNotification or NotificationLog row is added. -/
theorem C4_absence_notification_idempotent (student : Student)
    (attendance : AttRecord) (st : NotifState)
    (habsent : attendance.status = Status.absent)
    (hfresh : st.notifications.any (absenceKeyed student attendance) = false) :
    ((send_single_absentee_notification student attendance st).1.notifications.filter
        (absenceKeyed student attendance)).length = 1
    ∧ (student.parent = none →
        (send_single_absentee_notification student attendance st).1.logs
          = st.logs ++ [⟨.email, student.email⟩,
              ⟨.push, "device_" ++ toString student.id⟩]
        ∧ (send_single_absentee_notification student attendance st).1.parentNotifications
          = st.parentNotifications)
    ∧ (∀ p : Parent, student.parent = some p →
        (send_single_absentee_notification student attendance st).1.logs
          = ((st.logs ++ [⟨.email, student.email⟩,
              ⟨.push, "device_" ++ toString student.id⟩]) ++ [⟨.email, p.email⟩])
            ++ (if p.phone == "" then [] else [⟨Channel.sms, p.phone⟩])
        ∧ (send_single_absentee_notification student attendance st).1.parentNotifications
          = st.parentNotifications ++ [⟨p, student.id, .absence, true, !(p.phone == "")⟩])
    ∧ send_single_absentee_notification student attendance
        (send_single_absentee_notification student attendance st).1
      = ((send_single_absentee_notification student attendance st).1, none) := by
  have hnotif := single_notify_notifications student attendance st habsent hfresh
  have hflt : st.notifications.filter (absenceKeyed student attendance) = [] := by
    apply List.filter_eq_nil_iff.mpr
    intro n hn hkey
    have : st.notifications.any (absenceKeyed student attendance) = true :=
      List.any_eq_true.mpr ⟨n, hn, hkey⟩
    rw [hfresh] at this
    exact absurd this (by simp)
  refine ⟨?_, ?_, ?_, ?_⟩
  · rw [hnotif, List.filter_append, hflt]
    simp [absenceKeyed_sent]
  · intro hpar
    rw [single_notify_run_none student attendance st habsent hfresh hpar]
    exact ⟨rfl, rfl⟩
  · intro p hpar
    rw [single_notify_run_some student attendance st p habsent hfresh hpar]
    exact ⟨rfl, rfl⟩
  · have hany : (send_single_absentee_notification student attendance
        st).1.notifications.any (absenceKeyed student attendance) = true := by
      rw [hnotif, List.any_append, hfresh]
      simp [absenceKeyed_sent]
    conv in send_single_absentee_notification student attendance
        (send_single_absentee_notification student attendance st).1 =>
      rw [send_single_absentee_notification]
    rw [if_neg (by simp [habsent]), if_pos hany]

/-- Witness for C4 at a concrete input: student 7 (with a parent who has a
phone), an absent record for (session 1, student 7), empty notification
state; the hypotheses hold by computation and the theorem yields the
single-notification count and the second-call no-op. -/
theorem C4_absence_notification_idempotent_witness :
    (⟨1, 7, .absent, .manual, none, none, none, none, ""⟩ : AttRecord).status
        = Status.absent
    ∧ (⟨[], [], []⟩ : NotifState).notifications.any
        (absenceKeyed ⟨7, true, "s@x", "55", some ⟨"Ma", "m@x", "99"⟩⟩
          ⟨1, 7, .absent, .manual, none, none, none, none, ""⟩) = false
    ∧ ((send_single_absentee_notification
          ⟨7, true, "s@x", "55", some ⟨"Ma", "m@x", "99"⟩⟩
          ⟨1, 7, .absent, .manual, none, none, none, none, ""⟩
          ⟨[], [], []⟩).1.notifications.filter
        (absenceKeyed ⟨7, true, "s@x", "55", some ⟨"Ma", "m@x", "99"⟩⟩
          ⟨1, 7, .absent, .manual, none, none, none, none, ""⟩)).length = 1
    ∧ send_single_absentee_notification
        ⟨7, true, "s@x", "55", some ⟨"Ma", "m@x", "99"⟩⟩
        ⟨1, 7, .absent, .manual, none, none, none, none, ""⟩
        ((send_single_absentee_notification
          ⟨7, true, "s@x", "55", some ⟨"Ma", "m@x", "99"⟩⟩
          ⟨1, 7, .absent, .manual, none, none, none, none, ""⟩
          ⟨[], [], []⟩).1)
      = ((send_single_absentee_notification
          ⟨7, true, "s@x", "55", some ⟨"Ma", "m@x", "99"⟩⟩
          ⟨1, 7, .absent, .manual, none, none, none, none, ""⟩
          ⟨[], [], []⟩).1, none) :=
  ⟨rfl, rfl,
    (C4_absence_notification_idempotent
      ⟨7, true, "s@x", "55", some ⟨"Ma", "m@x", "99"⟩⟩
      ⟨1, 7, .absent, .manual, none, none, none, none, ""⟩
      ⟨[], [], []⟩ rfl rfl).1,
    (C4_absence_notification_idempotent
      ⟨7, true, "s@x", "55", some ⟨"Ma", "m@x", "99"⟩⟩
      ⟨1, 7, .absent, .manual, none, none, none, none, ""⟩
      ⟨[], [], []⟩ rfl rfl).2.2.2⟩

/-- C5 counterexample: session 1 has a single absent record (student 7) that
already has its absence notification (created by one run of the single-record
path, so the per-record path is a no-op on it).  Re-running the bulk path
over the session creates a second absence Notification — the bulk path never
checks for existing notifications, so it is not equivalent to invoking the
single-record path per record, and re-running it duplicates alerts instead
of creating none. -/
theorem C5_counterexample_bulk_duplicates :
    (send_single_absentee_notification ⟨7, true, "s@x", "", none⟩
        ⟨1, 7, .absent, .manual, none, none, none, none, ""⟩
        ⟨[], [], []⟩).1.notifications.length = 1
    ∧ send_single_absentee_notification ⟨7, true, "s@x", "", none⟩
        ⟨1, 7, .absent, .manual, none, none, none, none, ""⟩
        ((send_single_absentee_notification ⟨7, true, "s@x", "", none⟩
          ⟨1, 7, .absent, .manual, none, none, none, none, ""⟩
          ⟨[], [], []⟩).1)
      = ((send_single_absentee_notification ⟨7, true, "s@x", "", none⟩
          ⟨1, 7, .absent, .manual, none, none, none, none, ""⟩
          ⟨[], [], []⟩).1, none)
    ∧ (send_absentee_notifications ⟨1, 9, [⟨7, true, "s@x", "", none⟩], true⟩
        [⟨7, true, "s@x", "", none⟩]
        [⟨1, 7, .absent, .manual, none, none, none, none, ""⟩]
        (send_single_absentee_notification ⟨7, true, "s@x", "", none⟩
          ⟨1, 7, .absent, .manual, none, none, none, none, ""⟩
          ⟨[], [], []⟩).1).1.notifications.length = 2 := by
  refine ⟨by decide, by decide, by decide⟩

/-- Over any list of absent records, the bulk loop body adds exactly one
notification per record and counts each record once, independently of the
starting state. -/
theorem bulk_notify_accumulates (students : List Student) (l : List AttRecord)
    (st : NotifState) (c : ℕ) :
    (l.foldl (bulk_notify_step students) (st, c)).2 = c + l.length
    ∧ (l.foldl (bulk_notify_step students) (st, c)).1.notifications.length
        = st.notifications.length + l.length := by
  induction l generalizing st c with
  | nil => simp
  | cons r t ih =>
    simp only [List.foldl_cons]
    have hn : (bulk_notify_step students (st, c) r).1.notifications.length
        = st.notifications.length + 1 := by
      simp only [bulk_notify_step]
      cases hpar : (lookupStudent students r.studentId).parent <;> simp [hpar]
    have hc : (bulk_notify_step students (st, c) r).2 = c + 1 := rfl
    obtain ⟨h1, h2⟩ := ih (bulk_notify_step students (st, c) r).1
      (bulk_notify_step students (st, c) r).2
    constructor
    · have h1a : (t.foldl (bulk_notify_step students)
          (bulk_notify_step students (st, c) r)).2
          = (bulk_notify_step students (st, c) r).2 + t.length := h1
      rw [h1a, hc, List.length_cons]
      omega
    · have h2a : (t.foldl (bulk_notify_step students)
            (bulk_notify_step students (st, c) r)).1.notifications.length
          = (bulk_notify_step students (st, c) r).1.notifications.length + t.length := h2
      rw [h2a, hn, List.length_cons]
      omega

/-- C5 amended: the bulk path creates one absence Notification per absent
record of the session unconditionally — it performs no existing-notification
check, so re-running it adds that many notifications again regardless of the
prior state; its return value is the number of absent records.  (The
duplicate suppression of the claim exists only in the single-record path.) -/
theorem C5_amended_bulk_unconditional (session : Session) (students : List Student)
    (db : List AttRecord) (st : NotifState) :
    (send_absentee_notifications session students db st).2
        = (db.filter (fun r => r.sessionId == session.id
            && r.status == Status.absent)).length
    ∧ (send_absentee_notifications session students db st).1.notifications.length
        = st.notifications.length
          + (db.filter (fun r => r.sessionId == session.id
              && r.status == Status.absent)).length := by
  have h := bulk_notify_accumulates students
    (db.filter (fun r => r.sessionId == session.id && r.status == Status.absent)) st 0
  exact ⟨by simpa [send_absentee_notifications] using h.1,
    by simpa [send_absentee_notifications] using h.2⟩

end SmartCampus
